import Mathlib

/-!
Verification development for the Lumino product-photo chatbot
(`src/app/api/whatsapp/route.ts`, `src/app/api/chat/route.ts`,
`src/lib/profile-extractor.ts`).

JavaScript strings are modelled as lists of characters (`JStr`), and the
JavaScript string operations used by the source (`split`, `trim`,
`toLowerCase`, `includes`, `join`, template concatenation) are modelled as
executable functions on `JStr`.  Stateful route handlers are modelled as
explicit state-passing functions whose external effects (model call,
storage upload, linked-user lookup) are supplied as oracle inputs.
-/

/-- A JavaScript string, modelled as its sequence of characters. -/
abbrev JStr := List Char

/-- Converts a Lean string literal to the `JStr` model. -/
def str (s : String) : JStr := s.data

/-- JavaScript whitespace test used by `trim` and `split(/\s+/)`. -/
def isJsWs (c : Char) : Bool := c.isWhitespace

/-- Model of `String.prototype.trim`: drop leading and trailing whitespace. -/
def jsTrim (s : JStr) : JStr :=
  ((s.dropWhile isJsWs).reverse.dropWhile isJsWs).reverse

/-- Model of `String.prototype.toLowerCase` (ASCII letters; characters such
as `ß` are unaffected, as in the source's German keyword sets). -/
def jsToLowerCase (s : JStr) : JStr := s.map Char.toLower

/-- Model of `String.prototype.includes`: substring test. -/
def jsIncludes (s pat : JStr) : Bool :=
  match s with
  | [] => pat.isEmpty
  | c :: rest => pat.isPrefixOf (c :: rest) || jsIncludes rest pat

/-- Model of `String.prototype.split(sep)` with a one-character separator. -/
def jsSplit (sep : Char) (s : JStr) : List JStr := s.splitOn sep

/-- Model of `Array.prototype.join(sep)`. -/
def jsJoin (sep : JStr) (xs : List JStr) : JStr := List.intercalate sep xs

/-- Helper for `jsSplitWs`: `cur = some t` accumulates the current token
(reversed); `cur = none` means the scan is inside a whitespace run, so
further whitespace is absorbed into the same separator, matching
`split(/\s+/)`. -/
def jsSplitWsGo (cur : Option JStr) (s : JStr) : List JStr :=
  match s with
  | [] =>
    match cur with
    | some t => [t.reverse]
    | none => [[]]
  | c :: rest =>
    if isJsWs c then
      match cur with
      | some t => t.reverse :: jsSplitWsGo none rest
      | none => jsSplitWsGo none rest
    else
      match cur with
      | some t => jsSplitWsGo (some (c :: t)) rest
      | none => jsSplitWsGo (some [c]) rest

/-- Model of `String.prototype.split(/\s+/)`: split on maximal whitespace
runs (the empty string yields one empty piece, as in JavaScript). -/
def jsSplitWs (s : JStr) : List JStr := jsSplitWsGo (some []) s

/-! ## WhatsApp webhook intent classifier (`src/app/api/whatsapp/route.ts`) -/

/-- `hasDirectKeywords` (route.ts:317-323): the lowercased message contains
one of the direct-generation keywords.  The argument is the already
lowercased message text (`messageText` in the source). -/
def hasDirectKeywords (messageText : JStr) : Bool :=
  jsIncludes messageText (str ("direkt")) ||
  jsIncludes messageText (str ("loslegen")) ||
  jsIncludes messageText (str ("generier")) ||
  jsIncludes messageText (str ("erstell")) ||
  jsIncludes messageText (str ("mach mir")) ||
  jsIncludes messageText (str ("zeig mir"))

/-- `hasStyleDescription` (route.ts:326-343): style/description keywords
that indicate the user wants to generate, gated on an image being
available. -/
def hasStyleDescription (hasImage : Bool) (messageText : JStr) : Bool :=
  hasImage && (
    jsIncludes messageText (str ("hintergrund")) ||
    jsIncludes messageText (str ("szene")) ||
    jsIncludes messageText (str ("foto")) ||
    jsIncludes messageText (str ("stil")) ||
    jsIncludes messageText (str ("minimalist")) ||
    jsIncludes messageText (str ("natur")) ||
    jsIncludes messageText (str ("studio")) ||
    jsIncludes messageText (str ("marmor")) ||
    jsIncludes messageText (str ("weiß")) ||
    jsIncludes messageText (str ("weiss")) ||
    jsIncludes messageText (str ("schwarz")) ||
    jsIncludes messageText (str ("holz")) ||
    jsIncludes messageText (str ("luxus")) ||
    jsIncludes messageText (str ("elegant")) ||
    jsIncludes messageText (str ("modern")) ||
    jsIncludes messageText (str ("professionell")))

/-- `shouldGenerateImage` (route.ts:347): generate only with an available
image that was NOT freshly attached this turn, and an explicit direct or
style signal. -/
def shouldGenerateImage (hasImage freshImageInMessage : Bool)
    (messageText : JStr) : Bool :=
  hasImage && !freshImageInMessage &&
    (hasDirectKeywords messageText || hasStyleDescription hasImage messageText)

/-- The classifier decisions observable in the WhatsApp route: the
generation branch (route.ts:357), or the chat branch, which with a fresh
image in the message is the ask-for-style flow prescribed by
`WHATSAPP_SYSTEM_PROMPT` ("WENN KUNDE EIN BILD SCHICKT: ... Frage: Wie
soll dein Produktfoto aussehen?"). -/
inductive WhatsAppDecision where
  | GENERATE
  | ASK_STYLE
  | CHAT
deriving DecidableEq

/-- The per-turn decision of the WhatsApp route (route.ts:314,347,357):
`messageText` is the lowercased body; the chat branch is labelled
`ASK_STYLE` exactly when the turn carries a fresh image. -/
def classifyTurn (freshImageInMessage hasImage : Bool) (body : JStr) :
    WhatsAppDecision :=
  let messageText := jsToLowerCase body
  if shouldGenerateImage hasImage freshImageInMessage messageText then
    WhatsAppDecision.GENERATE
  else if freshImageInMessage then
    WhatsAppDecision.ASK_STYLE
  else
    WhatsAppDecision.CHAT

/-! ## WhatsApp turn state model (`src/app/api/whatsapp/route.ts` POST) -/

/-- One entry of the `userImages` carry-over cache (route.ts:96). -/
structure CacheEntry where
  base64 : JStr
  mimeType : JStr
  timestamp : Int
deriving DecidableEq

/-- A row inserted into `gallery_images` by `saveImageToGalleryServer`
(route.ts:71-83). -/
structure GalleryRow where
  image_url : JStr
  user_id : JStr
  archived : Bool
deriving DecidableEq

/-- The mutable state a WhatsApp turn touches, restricted to one phone
identity: its `userImages` slot and the gallery table. -/
structure TurnState where
  cacheEntry : Option CacheEntry
  gallery : List GalleryRow
deriving DecidableEq

/-- Outcome of the image-generation model call (route.ts:377-405): the call
throws, or replies with an optional inline image part (mimeType, data);
`replied none` is a reply carrying no image part. -/
inductive GenOutcome where
  | threw
  | replied (imageData : Option (JStr × JStr))
deriving DecidableEq

/-- Oracle inputs of one WhatsApp turn: the message body, the fetched fresh
image (base64, mimeType) when media was attached and the Twilio fetch
succeeded, the current clock, and the results of the external calls. -/
structure TurnInput where
  body : JStr
  freshImage : Option (JStr × JStr)
  now : Int
  genOutcome : GenOutcome
  uploadResult : Option JStr
  linkedUserId : Option JStr
  whatsappUserId : JStr
deriving DecidableEq

/-- Result of the fresh-image / carry-over handling (route.ts:230-305). -/
structure ImageResolution where
  cacheEntry : Option CacheEntry
  hasImage : Bool
  freshImageInMessage : Bool
  usedStoredImage : Bool
deriving DecidableEq

/-- Image handling of one turn (route.ts:230-305): a fresh image is stored
in the cache with the current timestamp; otherwise a cached entry is used
only if younger than 30 minutes, and an expired entry is evicted.
`usedStoredImage` records that the stored image was injected into the
model request parts. -/
def resolveImage (cacheEntry : Option CacheEntry)
    (freshImage : Option (JStr × JStr)) (now : Int) : ImageResolution :=
  match freshImage with
  | some (b64, mt) =>
    { cacheEntry := some { base64 := b64, mimeType := mt, timestamp := now }
      hasImage := true
      freshImageInMessage := true
      usedStoredImage := false }
  | none =>
    match cacheEntry with
    | some e =>
      if now - e.timestamp < 30 * 60 * 1000 then
        { cacheEntry := some e
          hasImage := true
          freshImageInMessage := false
          usedStoredImage := true }
      else
        { cacheEntry := none
          hasImage := false
          freshImageInMessage := false
          usedStoredImage := false }
    | none =>
      { cacheEntry := none
        hasImage := false
        freshImageInMessage := false
        usedStoredImage := false }

/-- `generatedImageUrl` as assembled from the model reply
(route.ts:390-402): a data URL from the inline image part, none when the
call threw or returned no image part. -/
def genImageUrl (o : GenOutcome) : Option JStr :=
  match o with
  | GenOutcome.threw => none
  | GenOutcome.replied none => none
  | GenOutcome.replied (some (mt, data)) =>
    some (str ("data:") ++ mt ++ str (";base64,") ++ data)

/-- The post-generation dispatch block (route.ts:453-486): only when a
generated image exists AND the storage upload yields a public URL is a
gallery row inserted and the cached image deleted; otherwise both are left
as they were. -/
def dispatchGenerated (st : TurnState) (cacheAfterLookup : Option CacheEntry)
    (generatedImageUrl : Option JStr) (uploadResult linkedUserId : Option JStr)
    (whatsappUserId : JStr) : TurnState :=
  match generatedImageUrl with
  | none => { cacheEntry := cacheAfterLookup, gallery := st.gallery }
  | some _ =>
    match uploadResult with
    | some publicUrl =>
      { cacheEntry := none
        gallery := st.gallery ++
          [{ image_url := publicUrl
             user_id :=
               match linkedUserId with
               | some uid => uid
               | none => str ("whatsapp:") ++ whatsappUserId
             archived := false }] }
    | none => { cacheEntry := cacheAfterLookup, gallery := st.gallery }

/-- Observable outcome of one WhatsApp turn. -/
structure TurnResult where
  state : TurnState
  usedStoredImage : Bool
  calledImageGeneration : Bool
  generatedImage : Option JStr
deriving DecidableEq

/-- One WhatsApp turn (route.ts POST, lines 230-486), restricted to the
state-bearing steps: image resolution, the generate-or-chat decision, the
image-generation call outcome, and the upload/gallery/cache-clear block. -/
def runTurn (st : TurnState) (inp : TurnInput) : TurnResult :=
  let res := resolveImage st.cacheEntry inp.freshImage inp.now
  let messageText := jsToLowerCase inp.body
  let shouldGenerate :=
    shouldGenerateImage res.hasImage res.freshImageInMessage messageText
  let generatedImageUrl :=
    if shouldGenerate then genImageUrl inp.genOutcome else none
  { state := dispatchGenerated st res.cacheEntry generatedImageUrl
      inp.uploadResult inp.linkedUserId inp.whatsappUserId
    usedStoredImage := res.usedStoredImage
    calledImageGeneration := shouldGenerate
    generatedImage := generatedImageUrl }

/-! ## Conversational API endpoint (`src/app/api/chat/route.ts`, current
revision: the one defining `isShortPrompt`, `originalImageRequest` and
`getErrorMessage`) -/

/-- One message of the `history` array posted to the chat endpoint. -/
structure ChatHistoryMsg where
  role : String
  content : JStr
deriving DecidableEq

/-- `isImageOnlyUpload` (chat route): an image with no text or
whitespace-only text. -/
def isImageOnlyUpload (image : Option JStr) (message : JStr) : Bool :=
  image.isSome && (message.isEmpty || (jsTrim message).isEmpty)

/-- `wordCount` (chat route): `message.trim().split(/\s+/).length`. -/
def wordCount (message : JStr) : Nat := (jsSplitWs (jsTrim message)).length

/-- `isShortPrompt` (chat route): fewer than 12 words. -/
def isShortPrompt (message : JStr) : Bool := wordCount message < 12

/-- `userWantsDirectGeneration` (chat route): the user explicitly chose to
generate directly. -/
def userWantsDirectGeneration (message : JStr) : Bool :=
  let m := jsToLowerCase message
  jsIncludes m (str ("direkt")) ||
  jsIncludes m (str ("loslegen")) ||
  jsIncludes m (str ("generier jetzt")) ||
  jsIncludes m (str ("mach einfach")) ||
  jsIncludes m (str ("starten"))

/-- `hasImageKeywords` (chat route): generation/edit keywords, or — with an
image present — style keywords; always false for an image-only upload. -/
def hasImageKeywords (message : JStr) (image : Option JStr) : Bool :=
  let m := jsToLowerCase message
  !(isImageOnlyUpload image message) && (
    jsIncludes m (str ("erstell")) ||
    jsIncludes m (str ("generier")) ||
    jsIncludes m (str ("mach mir")) ||
    jsIncludes m (str ("zeig mir")) ||
    jsIncludes m (str ("ändere")) ||
    jsIncludes m (str ("bearbeite")) ||
    (image.isSome && (
      jsIncludes m (str ("hintergrund")) ||
      jsIncludes m (str ("szene")) ||
      jsIncludes m (str ("foto")) ||
      jsIncludes m (str ("bild")) ||
      jsIncludes m (str ("stil")) ||
      jsIncludes m (str ("minimalist")) ||
      jsIncludes m (str ("natur")) ||
      jsIncludes m (str ("studio")))))

/-- The per-message test of the backwards history scan that finds the
original image request: a user message longer than 3 characters whose
lowercased text contains one of the style/descriptor keywords. -/
def originalImageRequestMatch (msg : ChatHistoryMsg) : Bool :=
  msg.role == ("user" : String) && !msg.content.isEmpty &&
  msg.content.length > 3 &&
  (let content := jsToLowerCase msg.content
   jsIncludes content (str ("minimalist")) ||
   jsIncludes content (str ("foto")) ||
   jsIncludes content (str ("bild")) ||
   jsIncludes content (str ("hintergrund")) ||
   jsIncludes content (str ("szene")) ||
   jsIncludes content (str ("studio")) ||
   jsIncludes content (str ("natur")) ||
   jsIncludes content (str ("marmor")) ||
   jsIncludes content (str ("weiß")) ||
   jsIncludes content (str ("schwarz")))

/-- `originalImageRequest` (chat route): only when the user asked for
direct generation does the route scan the history backwards for the most
recent matching user message; otherwise the empty string. -/
def originalImageRequest (message : JStr) (history : List ChatHistoryMsg) :
    JStr :=
  if userWantsDirectGeneration message && !history.isEmpty then
    match history.reverse.find? originalImageRequestMatch with
    | some m => m.content
    | none => []
  else []

/-- `isImageRequest` (chat route): keywords with a long prompt or an
explicit direct choice, or a direct choice whose original request was
recovered from the history. -/
def isImageRequest (message : JStr) (image : Option JStr)
    (history : List ChatHistoryMsg) : Bool :=
  (hasImageKeywords message image &&
    (!(isShortPrompt message) || userWantsDirectGeneration message)) ||
  (userWantsDirectGeneration message &&
    !(originalImageRequest message history).isEmpty)

/-- `promptToUse` (chat route): `originalImageRequest || message`. -/
def promptToUse (message : JStr) (history : List ChatHistoryMsg) : JStr :=
  let o := originalImageRequest message history
  if o.isEmpty then message else o

/-- The three branches of the chat POST handler: image-only analysis,
image generation, or a plain text chat turn. -/
inductive ChatBranch where
  | imageOnlyUpload
  | imageGeneration
  | textChat
deriving DecidableEq

/-- The branch the chat POST handler takes for a request. -/
def chatBranch (message : JStr) (image : Option JStr)
    (history : List ChatHistoryMsg) : ChatBranch :=
  if isImageOnlyUpload image message then ChatBranch.imageOnlyUpload
  else if isImageRequest message image history then ChatBranch.imageGeneration
  else ChatBranch.textChat

/-- A thrown JavaScript error as inspected by `getErrorMessage` and
`isRetryableError`: the optionally present numeric fields
`status`, `code`, `response.status`, and the optional `message`. -/
structure JsError where
  status : Option Int
  code : Option Int
  responseStatus : Option Int
  message : Option JStr
deriving DecidableEq

/-- JavaScript `a || b` on optionally-present numbers (`undefined` and `0`
are falsy). -/
def jsNumOr (a b : Option Int) : Option Int :=
  match a with
  | some n => if n ≠ 0 then some n else b
  | none => b

/-- `error?.status || error?.code || error?.response?.status`. -/
def jsErrorCode (e : JsError) : Option Int :=
  jsNumOr e.status (jsNumOr e.code e.responseStatus)

/-- `error?.message || ''`. -/
def jsErrorMessage (e : JsError) : JStr :=
  match e.message with
  | some m => m
  | none => []

/-- `getErrorMessage` (chat route): maps any thrown error to one of five
fixed user-friendly German messages, classified by status code and
substrings of the raw message. -/
def getErrorMessage (e : JsError) : JStr :=
  let errorCode := jsErrorCode e
  let errorMessage := jsErrorMessage e
  if errorCode == some 429 || jsIncludes errorMessage (str ("429")) ||
      jsIncludes errorMessage (str ("RESOURCE_EXHAUSTED")) then
    str ("⏳ Die KI ist gerade sehr beschäftigt! Ich habe es mehrfach versucht, aber das Limit ist erreicht. Bitte warte 1-2 Minuten und versuche es dann erneut.")
  else if errorCode == some 401 || errorCode == some 403 ||
      jsIncludes errorMessage (str ("API_KEY")) then
    str ("🔑 Es gibt ein Problem mit der API-Konfiguration. Bitte kontaktiere den Support.")
  else if jsIncludes errorMessage (str ("timeout")) ||
      jsIncludes errorMessage (str ("ETIMEDOUT")) ||
      jsIncludes errorMessage (str ("network")) then
    str ("🌐 Verbindungsproblem. Bitte überprüfe deine Internetverbindung und versuche es erneut.")
  else if jsIncludes errorMessage (str ("safety")) ||
      jsIncludes errorMessage (str ("blocked")) ||
      jsIncludes errorMessage (str ("SAFETY")) then
    str ("⚠️ Diese Anfrage konnte nicht verarbeitet werden. Bitte versuche eine andere Beschreibung.")
  else
    str ("😕 Etwas ist schiefgelaufen. Bitte versuche es in ein paar Sekunden erneut.")

/-- The catch-all response of the chat POST handler: HTTP status paired
with the JSON `message` field, `NextResponse.json({message:
getErrorMessage(error)}, {status: 200})`. -/
def chatErrorResponse (e : JsError) : Nat × JStr :=
  (200, getErrorMessage e)

/-- The five friendly messages `getErrorMessage` can produce. -/
def friendlyErrorMessages : List JStr :=
  [str ("⏳ Die KI ist gerade sehr beschäftigt! Ich habe es mehrfach versucht, aber das Limit ist erreicht. Bitte warte 1-2 Minuten und versuche es dann erneut."),
   str ("🔑 Es gibt ein Problem mit der API-Konfiguration. Bitte kontaktiere den Support."),
   str ("🌐 Verbindungsproblem. Bitte überprüfe deine Internetverbindung und versuche es erneut."),
   str ("⚠️ Diese Anfrage konnte nicht verarbeitet werden. Bitte versuche eine andere Beschreibung."),
   str ("😕 Etwas ist schiefgelaufen. Bitte versuche es in ein paar Sekunden erneut.")]

/-! ## Profile extractor (`src/lib/profile-extractor.ts`) -/

/-- `REPLACE_FIELDS` (profile-extractor.ts:30). -/
def REPLACE_FIELDS : List String :=
  ["customer_name", "company_name", "address_form"]

/-- `APPEND_FIELDS` (profile-extractor.ts:33). -/
def APPEND_FIELDS : List String :=
  ["preferred_styles", "brand_colors", "favorite_backgrounds",
   "image_format_preferences", "special_notes"]

/-- `mergeAppendField` (profile-extractor.ts:35-42): treat the existing
value as a comma-separated list, compare each trimmed new item
case-insensitively against the trimmed existing items, and append only the
genuinely new items in their original casing.  `existing` is
`string | null`; both `null` and the empty string are falsy. -/
def mergeAppendField (existing : Option JStr) (newValue : JStr) : JStr :=
  match existing with
  | none => newValue
  | some e =>
    if e.isEmpty then newValue
    else
      let existingItems := (jsSplit ',' e).map (fun s => jsToLowerCase (jsTrim s))
      let newItems := (jsSplit ',' newValue).map jsTrim
      let unique := newItems.filter
        (fun item => !(decide (jsToLowerCase item ∈ existingItems)))
      if unique.isEmpty then e
      else e ++ str (", ") ++ jsJoin (str (", ")) unique

/-- A parsed JSON value as classified by the extractor loop, which keeps
only truthy plain strings (`if (!value || typeof value !== 'string')
continue`). -/
inductive JsValue where
  | strVal (s : JStr)
  | numVal (n : Int)
  | boolVal (b : Bool)
  | nullVal
  | objVal
  | arrVal
deriving DecidableEq

/-- JavaScript truthiness of a parsed JSON value. -/
def jsTruthy (v : JsValue) : Bool :=
  match v with
  | JsValue.strVal s => !s.isEmpty
  | JsValue.numVal n => n ≠ 0
  | JsValue.boolVal b => b
  | JsValue.nullVal => false
  | JsValue.objVal => true
  | JsValue.arrVal => true

/-- Whether `typeof value === 'string'`. -/
def jsIsString (v : JsValue) : Bool :=
  match v with
  | JsValue.strVal _ => true
  | _ => false

/-- The `CustomerProfile` fields touched by the extractor
(whatsapp-db.ts:8-20), all nullable text columns. -/
structure CustomerProfile where
  customer_name : Option JStr
  company_name : Option JStr
  brand_colors : Option JStr
  preferred_styles : Option JStr
  favorite_backgrounds : Option JStr
  image_format_preferences : Option JStr
  address_form : Option JStr
  special_notes : Option JStr
deriving DecidableEq

/-- `currentProfile?.[key]`: dynamic field access on the profile. -/
def getProfileField (p : CustomerProfile) (key : String) : Option JStr :=
  if key = "customer_name" then p.customer_name
  else if key = "company_name" then p.company_name
  else if key = "brand_colors" then p.brand_colors
  else if key = "preferred_styles" then p.preferred_styles
  else if key = "favorite_backgrounds" then p.favorite_backgrounds
  else if key = "image_format_preferences" then p.image_format_preferences
  else if key = "address_form" then p.address_form
  else if key = "special_notes" then p.special_notes
  else none

/-- `currentProfile?.[key]` with optional chaining on a possibly null
profile. -/
def getAppendFieldValue (currentProfile : Option CustomerProfile)
    (key : String) : Option JStr :=
  match currentProfile with
  | some p => getProfileField p key
  | none => none

/-- The `updates`-building loop of `extractAndUpdateProfile`
(profile-extractor.ts:84-97): falsy or non-string values are skipped,
replace-type keys take the new value, append-type keys merge, unrecognized
keys are skipped. -/
def buildUpdates (currentProfile : Option CustomerProfile) :
    List (String × JsValue) → List (String × JStr)
  | [] => []
  | (key, value) :: rest =>
    if !(jsTruthy value) || !(jsIsString value) then
      buildUpdates currentProfile rest
    else
      match value with
      | JsValue.strVal s =>
        if REPLACE_FIELDS.contains key then
          (key, s) :: buildUpdates currentProfile rest
        else if APPEND_FIELDS.contains key then
          (key, mergeAppendField (getAppendFieldValue currentProfile key) s) ::
            buildUpdates currentProfile rest
        else
          buildUpdates currentProfile rest
      | _ => buildUpdates currentProfile rest

/-- The merge-and-write step of `extractAndUpdateProfile`
(profile-extractor.ts:78-101), taking the parsed extraction result as
input: returns the `updates` passed to `upsertCustomerProfile`, or `none`
when no write happens (empty extraction or all fields dropped). -/
def extractAndUpdateProfile (currentProfile : Option CustomerProfile)
    (extracted : List (String × JsValue)) : Option (List (String × JStr)) :=
  if extracted.isEmpty then none
  else
    let updates := buildUpdates currentProfile extracted
    if updates.isEmpty then none
    else some updates

/-- A field of the extraction result that the loop drops silently: falsy
value, non-string value, or a key that is neither replace- nor
append-type. -/
def droppedField (kv : String × JsValue) : Bool :=
  !(jsTruthy kv.2) || !(jsIsString kv.2) ||
  (!(REPLACE_FIELDS.contains kv.1) && !(APPEND_FIELDS.contains kv.1))

/-! ## Theorems -/

/-- C1: for every inbound WhatsApp message carrying a fresh image this turn
whose text lacks direct-action keywords, the classifier decision is
ASK_STYLE; and with a fresh image the decision is never GENERATE,
regardless of the accompanying text. -/
theorem fresh_image_forces_ask_style (body : JStr)
    (hNoDirect : hasDirectKeywords (jsToLowerCase body) = false) :
    classifyTurn true true body = WhatsAppDecision.ASK_STYLE ∧
    ∀ b : JStr, classifyTurn true true b ≠ WhatsAppDecision.GENERATE := by
  constructor
  · simp [classifyTurn, shouldGenerateImage]
  · intro b
    simp [classifyTurn, shouldGenerateImage]

/-- Witness for C1 at the concrete message `"schön"` with a fresh image. -/
theorem fresh_image_forces_ask_style_witness :
    hasDirectKeywords (jsToLowerCase (str ("schön"))) = false ∧
    classifyTurn true true (str ("schön")) = WhatsAppDecision.ASK_STYLE :=
  ⟨by decide, (fresh_image_forces_ask_style (str ("schön")) (by decide)).1⟩

/-- C2 counterexample: the message `"direkt loslegen"` contains a
direct-action keyword and an image is available (attached fresh this
turn), yet the classifier decision is not GENERATE — the fresh-image rule
wins, contradicting the claim for the fresh case. -/
theorem direct_keyword_fresh_image_not_generate :
    hasDirectKeywords (jsToLowerCase (str ("direkt loslegen"))) = true ∧
    classifyTurn true true (str ("direkt loslegen")) ≠
      WhatsAppDecision.GENERATE := by
  decide

/-- C2 (amended): for every message containing a direct-action keyword
while an image is available from the carry-over cache (not fresh this
turn), the classifier decision is GENERATE. -/
theorem direct_keyword_carried_image_generates (body : JStr)
    (hKw : hasDirectKeywords (jsToLowerCase body) = true) :
    classifyTurn false true body = WhatsAppDecision.GENERATE := by
  simp [classifyTurn, shouldGenerateImage, hKw]

/-- Witness for the amended C2 at the concrete message `"direkt loslegen"`
with a carried-over image. -/
theorem direct_keyword_carried_image_generates_witness :
    classifyTurn false true (str ("direkt loslegen")) =
      WhatsAppDecision.GENERATE :=
  direct_keyword_carried_image_generates (str ("direkt loslegen")) (by decide)

/-- C7: for every chat request whose message is below the 12-word
threshold and carries no direct-generation signal, the handler does not
take the image-generation branch: the turn resolves to a text reply
(image-only analysis or a chat round-trip). -/
theorem short_prompt_no_direct_signal_never_generates
    (message : JStr) (image : Option JStr) (history : List ChatHistoryMsg)
    (hShort : isShortPrompt message = true)
    (hNoDirect : userWantsDirectGeneration message = false) :
    chatBranch message image history ≠ ChatBranch.imageGeneration := by
  have hreq : isImageRequest message image history = false := by
    simp [isImageRequest, hShort, hNoDirect]
  unfold chatBranch
  rw [hreq]
  split <;> simp

/-- Witness for C7 at the concrete one-word message `"blau"`. -/
theorem short_prompt_no_direct_signal_never_generates_witness :
    isShortPrompt (str ("blau")) = true ∧
    userWantsDirectGeneration (str ("blau")) = false ∧
    chatBranch (str ("blau")) none [] ≠ ChatBranch.imageGeneration :=
  ⟨by decide, by decide,
    short_prompt_no_direct_signal_never_generates (str ("blau")) none []
      (by decide) (by decide)⟩

/-- C8: the chat endpoint's catch-all responds with HTTP status 200 and
one of the five fixed user-friendly messages, for every thrown error; the
raw error detail is never exposed. -/
theorem chat_endpoint_always_200_friendly (e : JsError) :
    (chatErrorResponse e).1 = 200 ∧
    (chatErrorResponse e).2 ∈ friendlyErrorMessages := by
  refine ⟨rfl, ?_⟩
  show getErrorMessage e ∈ friendlyErrorMessages
  unfold getErrorMessage friendlyErrorMessages
  dsimp only
  split_ifs <;> simp

/-- C9: in the chat API, when the message contains a direct-generation
keyword and the history contains a user message longer than 3 characters
with a style/descriptor keyword, the generation prompt is built from the
most recent such message (the `find?` over the reversed history) instead
of the current confirmation text, and the image-generation branch is
taken. -/
theorem direct_confirmation_uses_original_request
    (message : JStr) (image : Option JStr) (history : List ChatHistoryMsg)
    (m : ChatHistoryMsg)
    (hDirect : userWantsDirectGeneration message = true)
    (hFind : history.reverse.find? originalImageRequestMatch = some m) :
    promptToUse message history = m.content ∧
    isImageRequest message image history = true := by
  have hne : history.isEmpty = false := by
    rcases history with _ | ⟨a, t⟩
    · simp at hFind
    · rfl
  have hmatch := List.find?_some hFind
  have hcontent : m.content.isEmpty = false := by
    unfold originalImageRequestMatch at hmatch
    simp only [Bool.and_eq_true] at hmatch
    simpa using hmatch.1.1.2
  have horig : originalImageRequest message history = m.content := by
    unfold originalImageRequest
    rw [hDirect, hne, hFind]
    rfl
  refine ⟨?_, ?_⟩
  · unfold promptToUse
    rw [horig]
    simp [hcontent]
  · unfold isImageRequest
    rw [horig, hDirect]
    simp [hcontent]

/-- Witness for C9: the confirmation `"direkt loslegen"` generates against
the earlier request `"minimalistisch auf Marmor"`. -/
theorem direct_confirmation_uses_original_request_witness :
    userWantsDirectGeneration (str ("direkt loslegen")) = true ∧
    promptToUse (str ("direkt loslegen"))
      [{ role := "user", content := str ("minimalistisch auf Marmor") }] =
      str ("minimalistisch auf Marmor") :=
  ⟨by decide,
    (direct_confirmation_uses_original_request (str ("direkt loslegen")) none
      [{ role := "user", content := str ("minimalistisch auf Marmor") }]
      { role := "user", content := str ("minimalistisch auf Marmor") }
      (by decide) (by decide)).1⟩

/-- Shared helper: a dropped field (falsy value, non-string value, or
unrecognized key) contributes nothing to the updates. -/
theorem buildUpdates_cons_dropped (currentProfile : Option CustomerProfile)
    (kv : String × JsValue) (rest : List (String × JsValue))
    (hd : droppedField kv = true) :
    buildUpdates currentProfile (kv :: rest) =
      buildUpdates currentProfile rest := by
  obtain ⟨k, v⟩ := kv
  simp only [buildUpdates]
  by_cases h1 : jsTruthy v = false
  · rw [if_pos (by simp [h1])]
  · by_cases h2 : jsIsString v = false
    · rw [if_pos (by simp [h2])]
    · have h1' : jsTruthy v = true := by simpa using h1
      have h2' : jsIsString v = true := by simpa using h2
      rw [if_neg (by simp [h1', h2'])]
      cases v with
      | strVal s =>
        unfold droppedField at hd
        rw [h1', h2'] at hd
        simp only [Bool.not_true, Bool.false_or] at hd
        rw [Bool.and_eq_true] at hd
        obtain ⟨hr, ha⟩ := hd
        rw [Bool.not_eq_true'] at hr ha
        dsimp only
        rw [hr, ha]
        simp
      | numVal n => rfl
      | boolVal b => rfl
      | nullVal => rfl
      | objVal => rfl
      | arrVal => rfl

/-- Shared helper: the updates-building loop produces nothing from a list
whose fields are all dropped. -/
theorem buildUpdates_all_dropped (currentProfile : Option CustomerProfile) :
    ∀ l : List (String × JsValue),
      (∀ kv ∈ l, droppedField kv = true) →
      buildUpdates currentProfile l = [] := by
  intro l
  induction l with
  | nil => intro _; rfl
  | cons kv rest ih =>
    intro h
    rw [buildUpdates_cons_dropped currentProfile kv rest
      (h kv (List.mem_cons_self _ _))]
    exact ih (fun x hx => h x (List.mem_cons_of_mem _ hx))

/-- C10: in the profile extract-and-merge step, a dropped field (falsy
value — in particular the empty string — non-string value, or
unrecognized key) contributes nothing to the updates, an empty-string
value is always dropped whatever its key, and when every extracted field
is dropped no profile write occurs at all. -/
theorem extracted_falsy_fields_dropped (currentProfile : Option CustomerProfile) :
    (∀ (kv : String × JsValue) (rest : List (String × JsValue)),
      droppedField kv = true →
      buildUpdates currentProfile (kv :: rest) =
        buildUpdates currentProfile rest) ∧
    (∀ (key : String) (rest : List (String × JsValue)),
      buildUpdates currentProfile ((key, JsValue.strVal []) :: rest) =
        buildUpdates currentProfile rest) ∧
    (∀ extracted : List (String × JsValue),
      (∀ kv ∈ extracted, droppedField kv = true) →
      extractAndUpdateProfile currentProfile extracted = none) := by
  refine ⟨buildUpdates_cons_dropped currentProfile, ?_, ?_⟩
  · intro key rest
    exact buildUpdates_cons_dropped currentProfile (key, JsValue.strVal [])
      rest rfl
  · intro extracted hall
    cases extracted with
    | nil => rfl
    | cons kv rest =>
      unfold extractAndUpdateProfile
      rw [buildUpdates_all_dropped currentProfile _ hall]
      simp

/-- Witness for C10: a lone empty-string `customer_name` extraction causes
no write at all. -/
theorem extracted_falsy_fields_dropped_witness :
    extractAndUpdateProfile none [("customer_name", JsValue.strVal [])] =
      none :=
  (extracted_falsy_fields_dropped none).2.2
    [("customer_name", JsValue.strVal [])] (by decide)

/-- C4: a failed image-generation call (throw, or a reply with no image
part) is atomic: on every turn whose image-generation call fails, no
gallery row is written and the carry-over cache entry is neither cleared
nor modified. -/
theorem failed_generation_is_atomic (st : TurnState) (inp : TurnInput)
    (hCall : (runTurn st inp).calledImageGeneration = true)
    (hFail : inp.genOutcome = GenOutcome.threw ∨
      inp.genOutcome = GenOutcome.replied none) :
    (runTurn st inp).state.gallery = st.gallery ∧
    (runTurn st inp).state.cacheEntry = st.cacheEntry := by
  have hurl : genImageUrl inp.genOutcome = none := by
    rcases hFail with h | h <;> rw [h] <;> rfl
  rcases hf : inp.freshImage with _ | ⟨b64, mt⟩
  · rcases hc : st.cacheEntry with _ | e
    · simp only [runTurn, resolveImage, hf, hc] at hCall
      simp [shouldGenerateImage] at hCall
    · by_cases ht : inp.now - e.timestamp < 30 * 60 * 1000
      · have ht2 : inp.now - e.timestamp < 1800000 := by omega
        constructor <;>
          simp [runTurn, resolveImage, hf, hc, ht, ht2, hurl, dispatchGenerated]
      · simp only [runTurn, resolveImage, hf, hc] at hCall
        rw [if_neg ht] at hCall
        simp [shouldGenerateImage] at hCall
  · simp only [runTurn, resolveImage, hf] at hCall
    simp [shouldGenerateImage] at hCall

/-- Witness for C4: with a live carried image, the message
`"direkt loslegen"`, and a model call that throws, the gallery and the
cache entry are unchanged. -/
theorem failed_generation_is_atomic_witness :
    (runTurn
      { cacheEntry := some { base64 := str ("QUJD"),
                             mimeType := str ("image/jpeg"),
                             timestamp := 0 },
        gallery := [] }
      { body := str ("direkt loslegen"), freshImage := none, now := 1000,
        genOutcome := GenOutcome.threw, uploadResult := none,
        linkedUserId := none,
        whatsappUserId := str ("u1") }).state.gallery = [] ∧
    (runTurn
      { cacheEntry := some { base64 := str ("QUJD"),
                             mimeType := str ("image/jpeg"),
                             timestamp := 0 },
        gallery := [] }
      { body := str ("direkt loslegen"), freshImage := none, now := 1000,
        genOutcome := GenOutcome.threw, uploadResult := none,
        linkedUserId := none,
        whatsappUserId := str ("u1") }).state.cacheEntry =
      some { base64 := str ("QUJD"), mimeType := str ("image/jpeg"),
             timestamp := 0 } :=
  failed_generation_is_atomic
    { cacheEntry := some { base64 := str ("QUJD"),
                           mimeType := str ("image/jpeg"), timestamp := 0 },
      gallery := [] }
    { body := str ("direkt loslegen"), freshImage := none, now := 1000,
      genOutcome := GenOutcome.threw, uploadResult := none,
      linkedUserId := none, whatsappUserId := str ("u1") }
    (by decide) (Or.inl rfl)

/-- Shared helper: a turn with an empty cache slot and no fresh image
injects no stored image. -/
theorem runTurn_empty_cache_no_stored (st2 : TurnState) (inp2 : TurnInput)
    (hc : st2.cacheEntry = none) (hf : inp2.freshImage = none) :
    (runTurn st2 inp2).usedStoredImage = false := by
  simp [runTurn, resolveImage, hc, hf]

/-- C5: a carry-over cache entry whose age is at least 30 minutes is
treated as absent by the lookup — no stored image is injected into the
model request — and the slot is evicted, so a subsequent turn without a
fresh image also finds no stored image. -/
theorem expired_carry_over_treated_absent (st : TurnState) (inp : TurnInput)
    (e : CacheEntry)
    (hEntry : st.cacheEntry = some e)
    (hNoFresh : inp.freshImage = none)
    (hAge : 30 * 60 * 1000 ≤ inp.now - e.timestamp) :
    (runTurn st inp).usedStoredImage = false ∧
    (runTurn st inp).state.cacheEntry = none ∧
    ∀ inp2 : TurnInput, inp2.freshImage = none →
      (runTurn (runTurn st inp).state inp2).usedStoredImage = false := by
  have ht : ¬(inp.now - e.timestamp < 30 * 60 * 1000) := by omega
  have ht2 : ¬(inp.now - e.timestamp < 1800000) := by omega
  have hcache : (runTurn st inp).state.cacheEntry = none := by
    simp [runTurn, resolveImage, hEntry, hNoFresh, ht, ht2,
      shouldGenerateImage, dispatchGenerated]
  refine ⟨?_, hcache, ?_⟩
  · simp [runTurn, resolveImage, hEntry, hNoFresh, ht, ht2]
  · intro inp2 h2
    exact runTurn_empty_cache_no_stored _ inp2 hcache h2

/-- Witness for C5 at a concrete entry stored at time 0 and looked up 31
minutes later. -/
theorem expired_carry_over_treated_absent_witness :
    (runTurn
      { cacheEntry := some { base64 := str ("QUJD"),
                             mimeType := str ("image/jpeg"),
                             timestamp := 0 },
        gallery := [] }
      { body := str ("direkt loslegen"), freshImage := none,
        now := 31 * 60 * 1000, genOutcome := GenOutcome.threw,
        uploadResult := none, linkedUserId := none,
        whatsappUserId := str ("u1") }).usedStoredImage = false ∧
    (runTurn
      { cacheEntry := some { base64 := str ("QUJD"),
                             mimeType := str ("image/jpeg"),
                             timestamp := 0 },
        gallery := [] }
      { body := str ("direkt loslegen"), freshImage := none,
        now := 31 * 60 * 1000, genOutcome := GenOutcome.threw,
        uploadResult := none, linkedUserId := none,
        whatsappUserId := str ("u1") }).state.cacheEntry = none :=
  ⟨(expired_carry_over_treated_absent
      { cacheEntry := some { base64 := str ("QUJD"),
                             mimeType := str ("image/jpeg"), timestamp := 0 },
        gallery := [] }
      { body := str ("direkt loslegen"), freshImage := none,
        now := 31 * 60 * 1000, genOutcome := GenOutcome.threw,
        uploadResult := none, linkedUserId := none,
        whatsappUserId := str ("u1") }
      { base64 := str ("QUJD"), mimeType := str ("image/jpeg"),
        timestamp := 0 }
      rfl rfl (by decide)).1,
   (expired_carry_over_treated_absent
      { cacheEntry := some { base64 := str ("QUJD"),
                             mimeType := str ("image/jpeg"), timestamp := 0 },
        gallery := [] }
      { body := str ("direkt loslegen"), freshImage := none,
        now := 31 * 60 * 1000, genOutcome := GenOutcome.threw,
        uploadResult := none, linkedUserId := none,
        whatsappUserId := str ("u1") }
      { base64 := str ("QUJD"), mimeType := str ("image/jpeg"),
        timestamp := 0 }
      rfl rfl (by decide)).2.1⟩

/-- C6 counterexample: a turn that generates successfully from the
carried-over image but whose storage upload fails keeps the cache entry —
it is not cleared after the successful generation, contradicting the
claim. -/
theorem successful_generation_upload_failure_keeps_cache :
    (runTurn
      { cacheEntry := some { base64 := str ("QUJD"),
                             mimeType := str ("image/jpeg"),
                             timestamp := 0 },
        gallery := [] }
      { body := str ("direkt loslegen"), freshImage := none, now := 1000,
        genOutcome := GenOutcome.replied
          (some (str ("image/png"), str ("REFUQQ=="))),
        uploadResult := none, linkedUserId := none,
        whatsappUserId := str ("u1") }).calledImageGeneration = true ∧
    (runTurn
      { cacheEntry := some { base64 := str ("QUJD"),
                             mimeType := str ("image/jpeg"),
                             timestamp := 0 },
        gallery := [] }
      { body := str ("direkt loslegen"), freshImage := none, now := 1000,
        genOutcome := GenOutcome.replied
          (some (str ("image/png"), str ("REFUQQ=="))),
        uploadResult := none, linkedUserId := none,
        whatsappUserId := str ("u1") }).usedStoredImage = true ∧
    (runTurn
      { cacheEntry := some { base64 := str ("QUJD"),
                             mimeType := str ("image/jpeg"),
                             timestamp := 0 },
        gallery := [] }
      { body := str ("direkt loslegen"), freshImage := none, now := 1000,
        genOutcome := GenOutcome.replied
          (some (str ("image/png"), str ("REFUQQ=="))),
        uploadResult := none, linkedUserId := none,
        whatsappUserId := str ("u1") }).generatedImage ≠ none ∧
    (runTurn
      { cacheEntry := some { base64 := str ("QUJD"),
                             mimeType := str ("image/jpeg"),
                             timestamp := 0 },
        gallery := [] }
      { body := str ("direkt loslegen"), freshImage := none, now := 1000,
        genOutcome := GenOutcome.replied
          (some (str ("image/png"), str ("REFUQQ=="))),
        uploadResult := none, linkedUserId := none,
        whatsappUserId := str ("u1") }).state.cacheEntry =
      some { base64 := str ("QUJD"), mimeType := str ("image/jpeg"),
             timestamp := 0 } := by
  decide

/-- Shared helper: the dispatch block clears the cache slot exactly on the
path where a generated image exists and the upload produced a public
URL. -/
theorem dispatchGenerated_success_clears (st : TurnState)
    (ca : Option CacheEntry) (g : Option JStr) (up lid : Option JStr)
    (uid : JStr) (hg : g ≠ none) (hup : up ≠ none) :
    (dispatchGenerated st ca g up lid uid).cacheEntry = none := by
  cases g with
  | none => exact absurd rfl hg
  | some u =>
    cases up with
    | none => exact absurd rfl hup
    | some pu => rfl

/-- C6 (amended): on every turn where image generation runs on the
carried-over image, succeeds, and the generated image is successfully
uploaded to storage (a public URL is obtained), the carry-over cache
entry is cleared; the counterexample above shows the entry is retained
when the upload fails. -/
theorem generation_and_upload_success_clears_cache (st : TurnState)
    (inp : TurnInput)
    (hStored : (runTurn st inp).usedStoredImage = true)
    (hImg : (runTurn st inp).generatedImage ≠ none)
    (hUp : inp.uploadResult ≠ none) :
    (runTurn st inp).state.cacheEntry = none :=
  dispatchGenerated_success_clears st _ _ _ _ _ hImg hUp

/-- Witness for the amended C6: same turn as the counterexample but with a
successful upload; the cache entry is cleared. -/
theorem generation_and_upload_success_clears_cache_witness :
    (runTurn
      { cacheEntry := some { base64 := str ("QUJD"),
                             mimeType := str ("image/jpeg"),
                             timestamp := 0 },
        gallery := [] }
      { body := str ("direkt loslegen"), freshImage := none, now := 1000,
        genOutcome := GenOutcome.replied
          (some (str ("image/png"), str ("REFUQQ=="))),
        uploadResult := some (str ("https://cdn.example/img.png")),
        linkedUserId := none,
        whatsappUserId := str ("u1") }).state.cacheEntry = none :=
  generation_and_upload_success_clears_cache
    { cacheEntry := some { base64 := str ("QUJD"),
                           mimeType := str ("image/jpeg"), timestamp := 0 },
      gallery := [] }
    { body := str ("direkt loslegen"), freshImage := none, now := 1000,
      genOutcome := GenOutcome.replied
        (some (str ("image/png"), str ("REFUQQ=="))),
      uploadResult := some (str ("https://cdn.example/img.png")),
      linkedUserId := none, whatsappUserId := str ("u1") }
    (by decide) (by decide) (by decide)

/-! ## Helper lemmas for the append-merge development -/

theorem modifyHead_append_ne_nil {α : Type} (f : α → α) (xs ys : List α)
    (h : xs ≠ []) :
    List.modifyHead f (xs ++ ys) = List.modifyHead f xs ++ ys := by
  cases xs with
  | nil => exact absurd rfl h
  | cons a t => rfl

theorem splitOnP_append_sep (p : Char → Bool) (s : Char) (hs : p s = true)
    (a b : List Char) :
    List.splitOnP p (a ++ s :: b) = List.splitOnP p a ++ List.splitOnP p b := by
  induction a with
  | nil => simp [List.splitOnP_nil, List.splitOnP_cons, hs]
  | cons c t ih =>
    simp only [List.cons_append, List.splitOnP_cons, ih]
    by_cases hc : p c
    · simp [hc]
    · rw [if_neg hc, if_neg hc,
        modifyHead_append_ne_nil _ _ _ (List.splitOnP_ne_nil p t)]

theorem splitOnP_pieces {α : Type} (p : α → Bool) (l : List α) :
    ∀ piece ∈ List.splitOnP p l, ∀ c ∈ piece, p c = false := by
  induction l with
  | nil =>
    intro piece hp c hc
    rw [List.splitOnP_nil] at hp
    simp at hp
    subst hp
    simp at hc
  | cons a t ih =>
    intro piece hp c hc
    rw [List.splitOnP_cons] at hp
    by_cases ha : p a
    · rw [if_pos ha] at hp
      rcases List.mem_cons.mp hp with h | h
      · subst h; simp at hc
      · exact ih piece h c hc
    · rw [if_neg ha] at hp
      rcases hsp : List.splitOnP p t with _ | ⟨h1, t1⟩
      · exact absurd hsp (List.splitOnP_ne_nil p t)
      · rw [hsp] at hp
        simp only [List.modifyHead] at hp
        rcases List.mem_cons.mp hp with h | h
        · subst h
          rcases List.mem_cons.mp hc with h2 | h2
          · subst h2; simpa using ha
          · exact ih h1 (by rw [hsp]; exact List.mem_cons_self _ _) c h2
        · exact ih piece (by rw [hsp]; exact List.mem_cons_of_mem _ h) c hc

theorem dropWhile_head_false {α : Type} (p : α → Bool) (l : List α) (a : α)
    (t : List α) (h : l.dropWhile p = a :: t) : p a = false := by
  induction l with
  | nil => simp at h
  | cons c r ih =>
    rw [List.dropWhile_cons] at h
    by_cases hc : p c
    · rw [if_pos hc] at h; exact ih h
    · rw [if_neg hc] at h
      cases h
      simpa using hc

theorem dropWhile_dropWhile {α : Type} (p : α → Bool) (l : List α) :
    (l.dropWhile p).dropWhile p = l.dropWhile p := by
  rcases h : l.dropWhile p with _ | ⟨a, t⟩
  · simp
  · rw [List.dropWhile_cons]
    simp [dropWhile_head_false p l a t h]

theorem dropWhile_append_singleton {α : Type} (p : α → Bool) (l : List α)
    (a : α) (ha : p a = false) :
    (l ++ [a]).dropWhile p = l.dropWhile p ++ [a] := by
  induction l with
  | nil => simp [List.dropWhile_cons, ha]
  | cons c t ih =>
    simp only [List.cons_append, List.dropWhile_cons]
    by_cases hc : p c
    · simp [hc, ih]
    · simp [hc]

theorem jsTrim_space_cons (u : JStr) : jsTrim (' ' :: u) = jsTrim u := by
  unfold jsTrim
  rw [List.dropWhile_cons, if_pos (by decide)]

theorem jsTrim_idem (s : JStr) : jsTrim (jsTrim s) = jsTrim s := by
  unfold jsTrim
  rcases h1 : s.dropWhile isJsWs with _ | ⟨a, t⟩
  · simp
  · have ha : isJsWs a = false := dropWhile_head_false _ _ _ _ h1
    rw [List.reverse_cons, dropWhile_append_singleton _ _ _ ha,
      List.reverse_append]
    simp only [List.reverse_singleton, List.singleton_append]
    rw [List.dropWhile_cons, if_neg (by simp [ha])]
    rw [List.reverse_cons, dropWhile_append_singleton _ _ _ ha,
      List.reverse_append]
    simp only [List.reverse_singleton, List.singleton_append, List.reverse_reverse]
    rw [dropWhile_dropWhile]

theorem mem_of_mem_jsTrim {c : Char} {s : JStr} (h : c ∈ jsTrim s) : c ∈ s := by
  unfold jsTrim at h
  rw [List.mem_reverse] at h
  have h2 := (List.dropWhile_sublist isJsWs).subset h
  rw [List.mem_reverse] at h2
  exact (List.dropWhile_sublist isJsWs).subset h2

theorem splitOnP_space_intercalate (us : List JStr) (u : JStr)
    (hfree : ∀ x ∈ u :: us, (',' : Char) ∉ x) :
    List.splitOnP (· == ',') (' ' :: List.intercalate (str (", ")) (u :: us)) =
      (u :: us).map (fun x => ' ' :: x) := by
  induction us generalizing u with
  | nil =>
    simp only [List.intercalate, List.intersperse, List.flatten,
      List.append_nil, List.map]
    apply List.splitOnP_eq_single
    intro x hx
    rcases List.mem_cons.mp hx with h | h
    · subst h; decide
    · have := hfree u (List.mem_cons_self _ _) 
      simp only [beq_iff_eq]
      intro he
      subst he
      exact this h
  | cons v vs ih =>
    have hstep : List.intercalate (str (", ")) (u :: v :: vs) =
        u ++ str (", ") ++ List.intercalate (str (", ")) (v :: vs) := by
      simp [List.intercalate, List.intersperse]
    rw [hstep]
    have hshape : ' ' :: (u ++ str (", ") ++ List.intercalate (str (", ")) (v :: vs)) =
        (' ' :: u) ++ ',' :: (' ' :: List.intercalate (str (", ")) (v :: vs)) := by
      simp [str]
    rw [hshape]
    rw [splitOnP_append_sep (· == ',') ',' (by decide) _ _]
    rw [ih v (fun x hx => hfree x (List.mem_cons_of_mem _ hx))]
    rw [List.splitOnP_eq_single]
    · rfl
    · intro x hx
      rcases List.mem_cons.mp hx with h | h
      · subst h; decide
      · have := hfree u (List.mem_cons_self _ _)
        simp only [beq_iff_eq]
        intro he
        subst he
        exact this h

theorem merge_self (v : JStr) : mergeAppendField (some v) v = v := by
  simp only [mergeAppendField]
  by_cases hv : v.isEmpty
  · rw [if_pos hv]
  · rw [if_neg hv]
    have hfilter : (List.map jsTrim (jsSplit ',' v)).filter
        (fun item => !(decide (jsToLowerCase item ∈
          (jsSplit ',' v).map (fun s => jsToLowerCase (jsTrim s))))) = [] := by
      rw [List.filter_eq_nil_iff]
      intro item hitem
      rcases List.mem_map.mp hitem with ⟨x, hx, rfl⟩
      simp only [Bool.not_eq_true', decide_eq_false_iff_not, not_not]
      exact List.mem_map.mpr ⟨x, hx, rfl⟩
    simp only [hfilter]
    rfl

theorem jsSplit_eq_splitOnP (sep : Char) (s : JStr) :
    jsSplit sep s = List.splitOnP (· == sep) s := rfl

theorem merge_noop_of_all_mem (e v : JStr) (he : e.isEmpty = false)
    (hall : ∀ x ∈ jsSplit ',' v,
      jsToLowerCase (jsTrim x) ∈
        (jsSplit ',' e).map (fun s => jsToLowerCase (jsTrim s))) :
    mergeAppendField (some e) v = e := by
  simp only [mergeAppendField]
  rw [if_neg (by simp [he])]
  have hfilter : (List.map jsTrim (jsSplit ',' v)).filter
      (fun item => !(decide (jsToLowerCase item ∈
        (jsSplit ',' e).map (fun s => jsToLowerCase (jsTrim s))))) = [] := by
    rw [List.filter_eq_nil_iff]
    intro item hitem
    rcases List.mem_map.mp hitem with ⟨x, hx, rfl⟩
    simp only [Bool.not_eq_true', decide_eq_false_iff_not, not_not]
    exact hall x hx
  simp only [hfilter]
  rfl

theorem comma_free_newItems (v : JStr) :
    ∀ x ∈ List.map jsTrim (jsSplit ',' v), (',' : Char) ∉ x := by
  intro x hx hc
  rcases List.mem_map.mp hx with ⟨y, hy, rfl⟩
  have hp := splitOnP_pieces (· == ',') v y hy ',' (mem_of_mem_jsTrim hc)
  simp at hp

theorem split_merge_result (e v : JStr) (u : JStr) (us : List JStr)
    (hU : (List.map jsTrim (jsSplit ',' v)).filter
      (fun item => !(decide (jsToLowerCase item ∈
        (jsSplit ',' e).map (fun s => jsToLowerCase (jsTrim s))))) = u :: us) :
    jsSplit ',' (e ++ str (", ") ++ jsJoin (str (", ")) (u :: us)) =
      jsSplit ',' e ++ (u :: us).map (fun x => ' ' :: x) := by
  have hshape : e ++ str (", ") ++ jsJoin (str (", ")) (u :: us) =
      e ++ ',' :: (' ' :: List.intercalate (str (", ")) (u :: us)) := by
    simp [str, jsJoin]
  rw [hshape, jsSplit_eq_splitOnP, jsSplit_eq_splitOnP]
  rw [splitOnP_append_sep (· == ',') ',' (by decide) _ _]
  have hfree : ∀ x ∈ u :: us, (',' : Char) ∉ x := by
    intro x hx
    have hxNI : x ∈ List.map jsTrim (jsSplit ',' v) :=
      (List.filter_sublist _).subset (hU ▸ hx)
    exact comma_free_newItems v x hxNI
  rw [splitOnP_space_intercalate us u hfree]

theorem mergeAppendField_idem_main (existing : Option JStr) (newValue : JStr) :
    mergeAppendField (some (mergeAppendField existing newValue)) newValue =
      mergeAppendField existing newValue := by
  rcases existing with _ | e
  · exact merge_self newValue
  · by_cases he : e.isEmpty
    · have h1 : mergeAppendField (some e) newValue = newValue := by
        simp only [mergeAppendField]
        rw [if_pos he]
      rw [h1]
      exact merge_self newValue
    · have he' : e.isEmpty = false := by simpa using he
      rcases hU : (List.map jsTrim (jsSplit ',' newValue)).filter
          (fun item => !(decide (jsToLowerCase item ∈
            (jsSplit ',' e).map (fun s => jsToLowerCase (jsTrim s))))) with
        _ | ⟨u, us⟩
      · have h1 : mergeAppendField (some e) newValue = e := by
          simp only [mergeAppendField]
          rw [if_neg (by simp [he'])]
          simp only [hU]
          rfl
        rw [h1]
        exact h1
      · have h1 : mergeAppendField (some e) newValue =
            e ++ str (", ") ++ jsJoin (str (", ")) (u :: us) := by
          simp only [mergeAppendField]
          rw [if_neg (by simp [he'])]
          simp only [hU]
          rfl
        rw [h1]
        apply merge_noop_of_all_mem
        · refine Bool.eq_false_iff.mpr ?_
          intro h
          rw [List.isEmpty_iff] at h
          rcases List.append_eq_nil.mp h with ⟨h1, -⟩
          rcases List.append_eq_nil.mp h1 with ⟨-, h2⟩
          exact absurd h2 (by decide)
        · intro x hx
          rw [split_merge_result e newValue u us hU]
          rw [List.map_append, List.mem_append]
          by_cases hin : jsToLowerCase (jsTrim x) ∈
              (jsSplit ',' e).map (fun s => jsToLowerCase (jsTrim s))
          · exact Or.inl hin
          · right
            have hiU : jsTrim x ∈ u :: us := by
              rw [← hU]
              exact List.mem_filter.mpr
                ⟨List.mem_map.mpr ⟨x, hx, rfl⟩, by simp [hin]⟩
            rw [List.map_map]
            refine List.mem_map.mpr ⟨jsTrim x, hiU, ?_⟩
            show jsToLowerCase (jsTrim (' ' :: jsTrim x)) =
              jsToLowerCase (jsTrim x)
            rw [jsTrim_space_cons, jsTrim_idem]

/-- C3: append-field merge is idempotent — merging the same new value
twice yields the same stored result as merging it once — and
case-insensitively de-duplicating: if every trimmed item of the new value
is already present (case-insensitively) among the trimmed items of a
non-empty existing value, the stored value is returned unchanged. -/
theorem mergeAppendField_idempotent (existing : Option JStr)
    (newValue : JStr) :
    mergeAppendField (some (mergeAppendField existing newValue)) newValue =
      mergeAppendField existing newValue ∧
    (∀ e : JStr, e.isEmpty = false →
      (∀ x ∈ jsSplit ',' newValue,
        jsToLowerCase (jsTrim x) ∈
          (jsSplit ',' e).map (fun s => jsToLowerCase (jsTrim s))) →
      mergeAppendField (some e) newValue = e) :=
  ⟨mergeAppendField_idem_main existing newValue,
   fun e he hall => merge_noop_of_all_mem e newValue he hall⟩

/-- Witness for C3 at the spec's example: existing `"Blau, Gold"`, new
value `"blau"` — merging twice equals merging once, and the stored value
is unchanged. -/
theorem mergeAppendField_idempotent_witness :
    mergeAppendField
      (some (mergeAppendField (some (str ("Blau, Gold"))) (str ("blau"))))
      (str ("blau")) =
      mergeAppendField (some (str ("Blau, Gold"))) (str ("blau")) ∧
    mergeAppendField (some (str ("Blau, Gold"))) (str ("blau")) =
      str ("Blau, Gold") :=
  ⟨(mergeAppendField_idempotent (some (str ("Blau, Gold"))) (str ("blau"))).1,
   (mergeAppendField_idempotent (some (str ("Blau, Gold"))) (str ("blau"))).2
     (str ("Blau, Gold")) (by decide) (by decide)⟩
